import Mathlib

/-!
Verification of the authentication / session-refresh flow of the
gajpatiadminfrontend admin client.

The development shallowly embeds two source units:

* `src/services/api.js` — the `ApiService` class: HTTP client core with the
  401 refresh/retry protocol (`isRefreshing` flag, `failedQueue`,
  `processQueue`, owner retry, queued retries).
* the zustand auth store (`useAuthStore`) — session state `{user,
  isAuthenticated, isLoading}` and the operations `login`, `signup`,
  `logout`, `refreshAuth`, `getCurrentUser`, `checkAuth`,
  `initializeAuth`, `setUser`.

Backend calls are modelled by passing the call's settled result
(`ApiResult`) as an explicit argument; `localStorage` is the `Storage`
record; zustand's merging `set({...})` is `applySet` over a partial
record `SetArg`.  JavaScript's `x || y` on strings (empty string is
falsy) is `jsOr`; an un-awaited `response.json()` promise is the
`JsValue.promise` value whose `.message` access yields `none`.
-/

namespace GajpatiAdmin

/-- JavaScript substring containment: `s.includes (pat)` — true iff `pat`
occurs contiguously in `s`. -/
def strContains (s pat : String) : Bool :=
  (List.range (s.length + 1)).any fun i => pat.data.isPrefixOf (s.data.drop i)

/-- JavaScript `m || dflt` where `m` models a possibly-absent string field:
`undefined` and the empty string are falsy. -/
def jsOr (m : Option String) (dflt : String) : String :=
  match m with
  | some s => if s = "" then dflt else s
  | none => dflt

/-- A settled backend call: resolved with a parsed value, or rejected with an
error message. -/
inductive ApiResult (α : Type) where
  | ok (val : α)
  | err (msg : String)

/-- The single `localStorage` entry `authToken`. -/
structure Storage where
  token : Option String
deriving Repr, DecidableEq

/-- Backend user record as read by the store (`response.data.user`). -/
structure BackendUser where
  _id : String
  fullname : String
  email : String
  username : String
  avatar : Option String
  role : Option String
deriving Repr, DecidableEq

/-- The projected profile kept in the session store. -/
structure UserProfile where
  id : String
  name : String
  email : String
  username : String
  avatar : Option String
  role : String
deriving Repr, DecidableEq

/-- Projection of a backend user record performed inside `login` and
`getCurrentUser`: field renames plus `role: response.data.user.role || "user"`. -/
def projectUser (u : BackendUser) : UserProfile :=
  { id := u._id
    name := u.fullname
    email := u.email
    username := u.username
    avatar := u.avatar
    role := u.role.getD "user" }

/-- The `data` payload of the auth endpoints (`login`, `refresh-token`,
`me`): both fields are optionally present. -/
structure AuthData where
  user : Option BackendUser
  accessToken : Option String
deriving Repr, DecidableEq

/-- An auth endpoint response body; `data` itself may be absent
(the source reads it with optional chaining `response.data?.`). -/
structure AuthResponse where
  data : Option AuthData
deriving Repr, DecidableEq

/-- Zustand session state: `{ user, isAuthenticated, isLoading }`. -/
structure AuthState where
  user : Option UserProfile
  isAuthenticated : Bool
  isLoading : Bool
deriving Repr, DecidableEq

/-- Argument to zustand's `set`: only the mentioned fields are updated. -/
structure SetArg where
  user : Option (Option UserProfile) := none
  isAuthenticated : Option Bool := none
  isLoading : Option Bool := none

/-- Zustand `set` merges the partial argument into the current state. -/
def applySet (st : AuthState) (a : SetArg) : AuthState :=
  { user := a.user.getD st.user
    isAuthenticated := a.isAuthenticated.getD st.isAuthenticated
    isLoading := a.isLoading.getD st.isLoading }

/-- Result shape of `login`. -/
structure LoginResult where
  success : Bool
  user : Option UserProfile := none
  error : Option String := none
deriving Repr, DecidableEq

/-- The `login` catch block's substring-based error translation
(an if/else-if chain, tested in source order). -/
def mapLoginError (m : String) : String :=
  if strContains m "User does not exist" then
    "User not found. Please check your credentials."
  else if strContains m "Invalid user credentials" then
    "Invalid username or password."
  else if strContains m "Account is deactivated" then
    "Your account has been deactivated. Please contact admin."
  else if strContains m "Too many requests" then
    "Too many login attempts. Please try again later."
  else m

/-- The store's `login(credentials)`: sets `isLoading` for the duration; on a
response carrying `data.user`, projects the profile, persists
`data.accessToken` when present, marks the session authenticated and returns
`{success:true, user}`; otherwise throws `Login failed`, which the catch block
(together with any rejected call) turns into `{success:false, error}` via
`mapLoginError`. -/
def login (st : AuthState) (storage : Storage) (resp : ApiResult AuthResponse) :
    AuthState × Storage × LoginResult :=
  let st := applySet st { isLoading := some true }
  match resp with
  | .ok r =>
    match r.data with
    | some d =>
      match d.user with
      | some bu =>
        let user := projectUser bu
        let storage :=
          match d.accessToken with
          | some tk => { token := some tk }
          | none => storage
        let st := applySet st
          { user := some (some user), isAuthenticated := some true,
            isLoading := some false }
        (st, storage, { success := true, user := some user })
      | none =>
        let st := applySet st { isLoading := some false }
        (st, storage, { success := false, error := some (mapLoginError "Login failed") })
    | none =>
      let st := applySet st { isLoading := some false }
      (st, storage, { success := false, error := some (mapLoginError "Login failed") })
  | .err m =>
    let st := applySet st { isLoading := some false }
    (st, storage, { success := false, error := some (mapLoginError m) })

/-- Result shape of `refreshAuth`, `getCurrentUser` (plain success flag, and
for the latter an optional profile). -/
structure OpResult where
  success : Bool
deriving Repr, DecidableEq

/-- The store's `refreshAuth()`: on a response carrying `data.accessToken`,
persist it and succeed; on a response without one, return failure with no
other effect; the catch block (rejected call) clears the token and resets
`user`/`isAuthenticated`. -/
def refreshAuth (st : AuthState) (storage : Storage) (resp : ApiResult AuthResponse) :
    AuthState × Storage × OpResult :=
  match resp with
  | .ok r =>
    match r.data.bind AuthData.accessToken with
    | some tk => (st, { token := some tk }, { success := true })
    | none => (st, storage, { success := false })
  | .err _m =>
    (applySet st { user := some none, isAuthenticated := some false },
      { token := none }, { success := false })

/-- The store's `logout()`: try the backend call (errors are logged and
swallowed by the catch block), then the finally block removes the token and
resets `user`/`isAuthenticated`; the third component is what `logout` itself
returns or throws. -/
def logout (st : AuthState) (storage : Storage) (backendResult : ApiResult Unit) :
    AuthState × Storage × Except String Unit :=
  let tryResult : Except String Unit :=
    match backendResult with
    | .ok _ => .ok ()
    | .err _m => .ok ()
  let st := applySet st { user := some none, isAuthenticated := some false }
  let _ := storage
  (st, { token := none }, tryResult)

/-- Result shape of `getCurrentUser`. -/
structure UserResult where
  success : Bool
  user : Option UserProfile := none
deriving Repr, DecidableEq

/-- The store's `getCurrentUser()`: on a response carrying `data.user`,
project and store the profile and mark authenticated; otherwise (missing user
or rejected call, which is logged) return failure without touching state. -/
def getCurrentUser (st : AuthState) (storage : Storage) (resp : ApiResult AuthResponse) :
    AuthState × Storage × UserResult :=
  match resp with
  | .ok r =>
    match r.data.bind AuthData.user with
    | some bu =>
      let user := projectUser bu
      (applySet st { user := some (some user), isAuthenticated := some true },
        storage, { success := true, user := some user })
    | none => (st, storage, { success := false })
  | .err _m => (st, storage, { success := false })

/-- Network calls that `checkAuth` can make, for counting round trips. -/
inductive NetworkCall where
  | me
  | refreshEndpoint
deriving Repr, DecidableEq

/-- Result shape of `checkAuth`. -/
structure CheckAuthResult where
  isAuthenticated : Bool
deriving Repr, DecidableEq

/-- The store's `checkAuth()`: with no persisted token, return unauthenticated
immediately; else try `getCurrentUser` (one `/users/me` call), on failure try
`refreshAuth` (one refresh call) and, if that succeeds, `getCurrentUser`
again.  The trace lists the network calls made, in order. -/
def checkAuth (st : AuthState) (storage : Storage)
    (meResp1 refreshResp meResp2 : ApiResult AuthResponse) :
    AuthState × Storage × CheckAuthResult × List NetworkCall :=
  match storage.token with
  | none => (st, storage, { isAuthenticated := false }, [])
  | some _tk =>
    let g1 := getCurrentUser st storage meResp1
    if g1.2.2.success then
      (g1.1, g1.2.1, { isAuthenticated := true }, [.me])
    else
      let rfr := refreshAuth g1.1 g1.2.1 refreshResp
      if rfr.2.2.success then
        let g2 := getCurrentUser rfr.1 rfr.2.1 meResp2
        (g2.1, g2.2.1, { isAuthenticated := g2.2.2.success }, [.me, .refreshEndpoint, .me])
      else
        (rfr.1, rfr.2.1, { isAuthenticated := false }, [.me, .refreshEndpoint])

/-- The store's `setUser(user)`: direct override, authenticated iff a user is
present (`!!user`). -/
def setUser (st : AuthState) (user : Option UserProfile) : AuthState :=
  applySet st { user := some user, isAuthenticated := some user.isSome }

/-- Registration response body (only `message` is read). -/
structure RegisterResponse where
  message : Option String
deriving Repr, DecidableEq

/-- Result shape of `signup`. -/
structure SignupResult where
  success : Bool
  message : Option String := none
  error : Option String := none
deriving Repr, DecidableEq

/-- The `signup` catch block's substring-based error translation. -/
def mapSignupError (m : String) : String :=
  if strContains m "Username can only contain letters, numbers, and underscores" then
    "Username can only contain letters, numbers, and underscores."
  else if strContains m "User with this email or username already exists" then
    "An account with this email or username already exists."
  else if strContains m "Password must be at least" then
    "Password must be at least 6 characters long."
  else if strContains m "Invalid email" then
    "Please enter a valid email address."
  else if strContains m "Full name is required" then
    "Please enter your full name."
  else m

/-- The store's `signup(userData)`: toggles `isLoading` around the call;
success carries `response.message || "Account created successfully!"`,
failure the translated message. -/
def signup (st : AuthState) (storage : Storage) (resp : ApiResult RegisterResponse) :
    AuthState × Storage × SignupResult :=
  let st := applySet st { isLoading := some true }
  match resp with
  | .ok r =>
    (applySet st { isLoading := some false }, storage,
      { success := true, message := some (jsOr r.message "Account created successfully!") })
  | .err m =>
    (applySet st { isLoading := some false }, storage,
      { success := false, error := some (mapSignupError m) })

/-- The store's `initializeAuth()`: sets `isLoading`, runs `checkAuth` and,
when authenticated, one more `getCurrentUser`; the finally block clears
`isLoading`. -/
def initializeAuth (st : AuthState) (storage : Storage)
    (meResp1 refreshResp meResp2 meResp3 : ApiResult AuthResponse) :
    AuthState × Storage :=
  let st := applySet st { isLoading := some true }
  let c := checkAuth st storage meResp1 refreshResp meResp2
  let after :=
    if c.2.2.1.isAuthenticated then
      let g := getCurrentUser c.1 c.2.1 meResp3
      (g.1, g.2.1)
    else
      (c.1, c.2.1)
  (applySet after.1 { isLoading := some false }, after.2)

/-! ## HTTP client core: the 401 refresh/retry protocol (`src/services/api.js`)

The client is single-threaded and event-loop driven.  A burst of `n`
concurrent requests that each receive 401 (on a non-login, non-refresh
endpoint) while `isRefreshing` is false is modelled in two phases that match
the cooperative schedule: each request first runs its 401 branch up to its
suspension point (`enqueue401`), then the refresh call settles and the owner
resumes (`ownerResume`).  Requests are identified by their arrival index. -/

/-- A value as seen by the JavaScript code: either a plain parsed error body
with an optional `message` field, or an unresolved `Promise` object (produced
when `response.json()` is used without `await`). -/
inductive JsValue where
  | promise
  | obj (message : Option String)
deriving Repr, DecidableEq

/-- Property access `v.message`: `undefined` on a `Promise` object. -/
def jsMessage : JsValue → Option String
  | .promise => none
  | .obj m => m

/-- A retry `fetch` result: `ok` flag, status, the `message` field of the
parsed error body (`none` models an absent field or unparsable body), and the
JSON body returned on success. -/
structure RetryResponse where
  ok : Bool
  status : Nat
  message : Option String
  body : String
deriving Repr, DecidableEq

/-- How the `refreshToken()` call inside the owner's branch settles:
resolved with `data.accessToken` present, resolved 2xx without one, or
rejected. -/
inductive RefreshOutcome where
  | token (tk : String)
  | okNoToken
  | failed (e : String)
deriving Repr, DecidableEq

/-- The fate of one request of the burst: fulfilled with a JSON body,
rejected with an error message, or never settled. -/
inductive ReqOutcome where
  | ok (body : String)
  | error (msg : String)
  | pending
deriving Repr, DecidableEq

/-- Mutable fields of the `ApiService` instance, plus counters for the
observable side effects (refresh-endpoint calls and `window.location.href`
assignments). -/
structure ClientState where
  isRefreshing : Bool
  failedQueue : List Nat
  owner : Option Nat
  refreshCalls : Nat
  redirects : Nat
deriving Repr, DecidableEq

/-- Client state at the start of a burst: `Idle`, empty queue. -/
def initialClient : ClientState :=
  { isRefreshing := false, failedQueue := [], owner := none,
    refreshCalls := 0, redirects := 0 }

/-- A request observing 401: if no refresh is in flight it becomes the owner —
sets `isRefreshing` and calls the refresh endpoint; otherwise its
`{resolve, reject}` continuation is pushed onto `failedQueue`. -/
def enqueue401 (cs : ClientState) (reqId : Nat) : ClientState :=
  if cs.isRefreshing then
    { cs with failedQueue := cs.failedQueue ++ [reqId] }
  else
    { cs with isRefreshing := true, owner := some reqId,
              refreshCalls := cs.refreshCalls + 1 }

/-- What `processQueue(error, token)` hands each queued continuation. -/
inductive QueueSignal where
  | resolved (token : Option String)
  | rejected (e : String)
deriving Repr, DecidableEq

/-- `processQueue(error, token)`: every queued continuation is rejected with
the error when one is given, else resolved with the token; the queue is then
emptied.  Returns the new client state and the signal delivered to each
queued request, in queue order. -/
def processQueue (cs : ClientState) (error : Option String) (token : Option String) :
    ClientState × List (Nat × QueueSignal) :=
  ({ cs with failedQueue := [] },
    cs.failedQueue.map fun reqId =>
      (reqId,
        match error with
        | some e => QueueSignal.rejected e
        | none => QueueSignal.resolved token))

/-- Error message built on the owner's failed retry, where the error body is
awaited: `errorData.message || "HTTP error! status: N"`. -/
def ownerRetryOutcome (r : RetryResponse) : ReqOutcome :=
  if r.ok then .ok r.body
  else .error (jsOr r.message ("HTTP error! status: " ++ toString r.status))

/-- The error body read on a queued request's failed retry: the source does
not `await` `response.json()`, so `errorData` is the pending promise itself. -/
def queuedRetryErrorData (_r : RetryResponse) : JsValue := .promise

/-- A queued request's retry: on a non-ok response the thrown message is
`errorData.message || "HTTP error! status: N"` with `errorData` the
un-awaited promise (so its `.message` is always `undefined`). -/
def queuedRetryOutcome (r : RetryResponse) : ReqOutcome :=
  if r.ok then .ok r.body
  else .error (jsOr (jsMessage (queuedRetryErrorData r))
    ("HTTP error! status: " ++ toString r.status))

/-- A queued continuation resuming on its signal: a rejection is re-thrown by
the trailing `.catch`; a resolution sets the Authorization header to the
delivered token and retries the original request. -/
def queuedContinuation (sig : QueueSignal) (retryResp : RetryResponse) : ReqOutcome :=
  match sig with
  | .rejected e => .error e
  | .resolved _tok => queuedRetryOutcome retryResp

/-- Observable result of a whole 401 burst. -/
structure BurstResult where
  refreshCalls : Nat
  owner : Option Nat
  retried : List (Nat × String)
  outcomes : List (Nat × ReqOutcome)
  pendingReqs : List Nat
  storage : Storage
  redirects : Nat
  queueAfter : List Nat
  isRefreshingAfter : Bool
deriving Repr, DecidableEq

/-- The owner resuming when its `refreshToken()` call settles.

* `token tk`: persist the token, `processQueue(null, tk)` resolves the queue
  in order, the owner retries its original request first (its `fetch` starts
  before the queued microtasks run), the finally block clears `isRefreshing`,
  then each queued continuation retries in queue order.
* `okNoToken`: `refreshResponse.data?.accessToken` is absent, so the whole
  success block (persist / processQueue / retry) is skipped; the finally
  block clears `isRefreshing` and control falls through to the generic throw
  with the original 401 error body.  The queue is left untouched.
* `failed e`: `processQueue(e, null)` rejects the queue, the token is
  removed, `window.location.href = "/login"` runs once, the error is
  re-thrown to the owner's caller, and the finally block clears
  `isRefreshing`. -/
def ownerResume (cs : ClientState) (storage : Storage) (outcome : RefreshOutcome)
    (originalMessage : Option String) (retryResponses : Nat → RetryResponse) :
    BurstResult :=
  let ownerId := cs.owner.getD 0
  match outcome with
  | .token tk =>
    let pq := processQueue cs none (some tk)
    let cs := { pq.1 with isRefreshing := false }
    let queuedRuns := pq.2.map fun p =>
      (p.1, queuedContinuation p.2 (retryResponses p.1))
    { refreshCalls := cs.refreshCalls
      owner := some ownerId
      retried := (ownerId, tk) ::
        pq.2.filterMap fun p =>
          match p.2 with
          | .resolved tok => some (p.1, tok.getD "null")
          | .rejected _ => none
      outcomes := (ownerId, ownerRetryOutcome (retryResponses ownerId)) :: queuedRuns
      pendingReqs := []
      storage := { token := some tk }
      redirects := cs.redirects
      queueAfter := cs.failedQueue
      isRefreshingAfter := cs.isRefreshing }
  | .okNoToken =>
    let cs := { cs with isRefreshing := false }
    { refreshCalls := cs.refreshCalls
      owner := some ownerId
      retried := []
      outcomes := [(ownerId, .error (jsOr originalMessage "HTTP error! status: 401"))]
      pendingReqs := cs.failedQueue
      storage := storage
      redirects := cs.redirects
      queueAfter := cs.failedQueue
      isRefreshingAfter := cs.isRefreshing }
  | .failed e =>
    let pq := processQueue cs (some e) none
    let cs := { pq.1 with isRefreshing := false, redirects := pq.1.redirects + 1 }
    let queuedRuns := pq.2.map fun p =>
      (p.1, queuedContinuation p.2 (retryResponses p.1))
    { refreshCalls := cs.refreshCalls
      owner := some ownerId
      retried := []
      outcomes := (ownerId, .error e) :: queuedRuns
      pendingReqs := []
      storage := { token := none }
      redirects := cs.redirects
      queueAfter := cs.failedQueue
      isRefreshingAfter := cs.isRefreshing }

/-- A burst of `n` concurrent requests that each receive 401 while the client
is idle: requests `0, 1, …, n-1` run their 401 branch in arrival order, then
the single refresh call settles with `outcome` and the owner resumes.
`originalMessage` is the `message` of request 0's original 401 error body;
`retryResponses i` is what the network returns for request `i`'s retry. -/
def runBurst (storage : Storage) (n : Nat) (outcome : RefreshOutcome)
    (originalMessage : Option String) (retryResponses : Nat → RetryResponse) :
    BurstResult :=
  let cs := (List.range n).foldl enqueue401 initialClient
  ownerResume cs storage outcome originalMessage retryResponses

/-! ## Helper lemmas -/

/-- Once a refresh is in flight, every further 401 is appended to the queue
and the rest of the client state is untouched. -/
theorem foldl_enqueue401_of_refreshing (l : List Nat) (cs : ClientState)
    (h : cs.isRefreshing = true) :
    l.foldl enqueue401 cs = { cs with failedQueue := cs.failedQueue ++ l } := by
  induction l generalizing cs with
  | nil => simp
  | cons a t ih =>
    have hstep : enqueue401 cs a = { cs with failedQueue := cs.failedQueue ++ [a] } := by
      simp [enqueue401, h]
    simp only [List.foldl_cons, hstep]
    rw [ih { cs with failedQueue := cs.failedQueue ++ [a] } h]
    simp

/-- Phase A of a burst of `m+1` requests starting idle: request 0 owns the
refresh, requests `1..m` are queued in order. -/
theorem burst_client_state (m : Nat) :
    (List.range (m + 1)).foldl enqueue401 initialClient
      = { isRefreshing := true, failedQueue := (List.range m).map Nat.succ,
          owner := some 0, refreshCalls := 1, redirects := 0 } := by
  rw [List.range_succ_eq_map]
  simp only [List.foldl_cons]
  have h0 : enqueue401 initialClient 0
      = { isRefreshing := true, failedQueue := [], owner := some 0,
          refreshCalls := 1, redirects := 0 } := rfl
  rw [h0, foldl_enqueue401_of_refreshing _ _ rfl]
  rfl

/-- Extracting the retry record from a queue uniformly resolved with a token
keeps every request, in order, paired with that token. -/
theorem filterMap_resolved_map (l : List Nat) (tk : String) :
    ((l.map fun reqId => (reqId, QueueSignal.resolved (some tk))).filterMap
        fun p =>
          match p.2 with
          | QueueSignal.resolved tok => some (p.1, tok.getD "null")
          | QueueSignal.rejected _ => none)
      = l.map fun i => (i, tk) := by
  induction l with
  | nil => rfl
  | cons a t ih => simp [ih]

/-- Running the queued continuations of a queue uniformly rejected with `e`
fails every request, in order, with `e`. -/
theorem map_rejected_continuation (l : List Nat) (e : String)
    (rr : Nat → RetryResponse) :
    ((l.map fun reqId => (reqId, QueueSignal.rejected e)).map
        fun p => (p.1, queuedContinuation p.2 (rr p.1)))
      = l.map fun i => (i, ReqOutcome.error e) := by
  induction l with
  | nil => rfl
  | cons a t ih => simp [ih, queuedContinuation]

/-- `getCurrentUser` never touches `isLoading`. -/
theorem getCurrentUser_isLoading (st : AuthState) (storage : Storage)
    (r : ApiResult AuthResponse) :
    (getCurrentUser st storage r).1.isLoading = st.isLoading := by
  cases r with
  | ok resp => cases h : resp.data.bind AuthData.user <;>
      simp [getCurrentUser, h, applySet]
  | err m => rfl

/-- `refreshAuth` never touches `isLoading`. -/
theorem refreshAuth_isLoading (st : AuthState) (storage : Storage)
    (r : ApiResult AuthResponse) :
    (refreshAuth st storage r).1.isLoading = st.isLoading := by
  cases r with
  | ok resp => cases h : resp.data.bind AuthData.accessToken <;>
      simp [refreshAuth, h, applySet]
  | err m => simp [refreshAuth, applySet]

/-- `checkAuth` never touches `isLoading`. -/
theorem checkAuth_isLoading (st : AuthState) (storage : Storage)
    (r1 r2 r3 : ApiResult AuthResponse) :
    (checkAuth st storage r1 r2 r3).1.isLoading = st.isLoading := by
  cases h : storage.token with
  | none => simp [checkAuth, h]
  | some tk =>
    simp only [checkAuth, h]
    split
    · exact getCurrentUser_isLoading st storage r1
    · split
      · rw [getCurrentUser_isLoading, refreshAuth_isLoading, getCurrentUser_isLoading]
      · rw [refreshAuth_isLoading, getCurrentUser_isLoading]

/-- `login` always leaves `isLoading` false when it returns. -/
theorem login_isLoading_false (st : AuthState) (storage : Storage)
    (r : ApiResult AuthResponse) :
    (login st storage r).1.isLoading = false := by
  cases r with
  | ok resp =>
    cases hd : resp.data with
    | none => simp [login, hd, applySet]
    | some d => cases hu : d.user <;> simp [login, hd, hu, applySet]
  | err m => rfl

/-- `signup` always leaves `isLoading` false when it returns. -/
theorem signup_isLoading_false (st : AuthState) (storage : Storage)
    (r : ApiResult RegisterResponse) :
    (signup st storage r).1.isLoading = false := by
  cases r <;> rfl

/-! ## Claim theorems -/

/-- Claim C4: a login response carrying both a user object and an access
token marks the session authenticated, persists the token, and returns
success with the projected profile (role defaulting to `user` when the
record has none); any 200 response lacking a user object yields
`success = false`. -/
theorem login_success_sets_session_and_token (st : AuthState) (storage : Storage)
    (bu : BackendUser) (tk : String) :
    (login st storage
        (.ok { data := some { user := some bu, accessToken := some tk } })).1.isAuthenticated
      = true ∧
    (login st storage
        (.ok { data := some { user := some bu, accessToken := some tk } })).2.1.token
      = some tk ∧
    (login st storage
        (.ok { data := some { user := some bu, accessToken := some tk } })).2.2
      = { success := true, user := some (projectUser bu) } ∧
    projectUser bu
      = { id := bu._id, name := bu.fullname, email := bu.email,
          username := bu.username, avatar := bu.avatar, role := bu.role.getD "user" } ∧
    ∀ r : AuthResponse, r.data.bind AuthData.user = none →
      (login st storage (.ok r)).2.2.success = false := by
  refine ⟨rfl, rfl, rfl, rfl, ?_⟩
  intro r h
  cases hd : r.data with
  | none => simp [login, hd]
  | some d =>
    rw [hd, Option.some_bind] at h
    simp [login, hd, show d.user = none from h]

/-- Claim C4 witness: the spec's scenario — `login(200, {user: {_id: u1,
fullname: A, email: a@x.com, username: a, role: admin}, accessToken: tok1})`
authenticates with role `admin` and stores `tok1`; a response without a user
fails. -/
theorem login_success_sets_session_and_token_witness :
    (login ⟨none, false, false⟩ ⟨none⟩
        (.ok ⟨some ⟨some ⟨"u1", "A", "a@x.com", "a", none, some "admin"⟩,
          some "tok1"⟩⟩)).1.isAuthenticated = true ∧
    (login ⟨none, false, false⟩ ⟨none⟩
        (.ok ⟨some ⟨some ⟨"u1", "A", "a@x.com", "a", none, some "admin"⟩,
          some "tok1"⟩⟩)).2.1.token = some "tok1" ∧
    (projectUser ⟨"u1", "A", "a@x.com", "a", none, some "admin"⟩).role = "admin" ∧
    (login ⟨none, false, false⟩ ⟨none⟩ (.ok ⟨none⟩)).2.2.success = false := by
  have h := login_success_sets_session_and_token ⟨none, false, false⟩ ⟨none⟩
    ⟨"u1", "A", "a@x.com", "a", none, some "admin"⟩ "tok1"
  exact ⟨h.1, h.2.1, by rw [h.2.2.2.1]; rfl, h.2.2.2.2 ⟨none⟩ rfl⟩

/-- Claim C5 counterexample: a refresh response with a 2xx body lacking an
access token makes `refreshAuth` return failure, yet the persisted token and
the session state are left untouched — the claim's "on any failure the
persisted token is cleared and session state is reset" is false here. -/
theorem refreshAuth_missing_token_keeps_state :
    (refreshAuth { user := none, isAuthenticated := true, isLoading := false }
        { token := some "t" } (.ok { data := none })).2.2.success = false ∧
    (refreshAuth { user := none, isAuthenticated := true, isLoading := false }
        { token := some "t" } (.ok { data := none })).2.1.token = some "t" ∧
    (refreshAuth { user := none, isAuthenticated := true, isLoading := false }
        { token := some "t" } (.ok { data := none })).1.isAuthenticated = true :=
  ⟨rfl, rfl, rfl⟩

/-- Claim C5 (amended): `refreshAuth` persists the token and succeeds when the
response carries one; when the call is rejected it clears the token, resets
the session to unauthenticated and fails; when the response resolves without
an access token it returns failure with the token and session unchanged. -/
theorem refreshAuth_spec (st : AuthState) (storage : Storage)
    (u : Option BackendUser) (tk e : String) :
    refreshAuth st storage (.ok { data := some { user := u, accessToken := some tk } })
      = (st, { token := some tk }, { success := true }) ∧
    refreshAuth st storage (.err e)
      = ({ st with user := none, isAuthenticated := false },
          { token := none }, { success := false }) ∧
    refreshAuth st storage (.ok { data := none })
      = (st, storage, { success := false }) ∧
    refreshAuth st storage (.ok { data := some { user := u, accessToken := none } })
      = (st, storage, { success := false }) :=
  ⟨rfl, rfl, rfl, rfl⟩

/-- Claim C6: `logout` removes the persisted token and resets the session to
unauthenticated whether the backend call resolves or rejects, and itself
always returns normally (the catch block swallows backend errors). -/
theorem logout_always_clears (st : AuthState) (storage : Storage)
    (outcome : ApiResult Unit) :
    logout st storage outcome
      = ({ st with user := none, isAuthenticated := false },
          { token := none }, Except.ok ()) := by
  cases outcome <;> rfl

/-- Claim C7: with no persisted token, `checkAuth` returns unauthenticated,
changes nothing, and its network-call trace is empty. -/
theorem checkAuth_no_token_no_network (st : AuthState)
    (m1 r m2 : ApiResult AuthResponse) :
    checkAuth st { token := none } m1 r m2
      = (st, { token := none }, { isAuthenticated := false }, []) :=
  rfl

/-- Claim C8 counterexample: a backend message containing both `User does not
exist` and `Invalid user credentials` is mapped by the if/else-if chain to
the user-not-found message, not to `Invalid username or password.` — so
"contains the substring `Invalid user credentials` implies exactly `Invalid
username or password.`" is false. -/
theorem login_error_substring_order_counterexample :
    strContains "User does not exist: Invalid user credentials"
        "Invalid user credentials" = true ∧
    (login { user := none, isAuthenticated := false, isLoading := false } { token := none }
        (.err "User does not exist: Invalid user credentials")).2.2.error
      = some "User not found. Please check your credentials." :=
  ⟨by decide, by decide⟩

/-- Claim C8 (amended): a failed login whose backend message contains
`Invalid user credentials` but not the earlier-tested `User does not exist`
returns exactly `Invalid username or password.`; a message matching none of
the four known substrings passes through unchanged. -/
theorem login_error_mapping (st : AuthState) (storage : Storage) (m1 m2 : String)
    (h1 : strContains m1 "Invalid user credentials" = true)
    (h2 : strContains m1 "User does not exist" = false)
    (h3 : strContains m2 "User does not exist" = false)
    (h4 : strContains m2 "Invalid user credentials" = false)
    (h5 : strContains m2 "Account is deactivated" = false)
    (h6 : strContains m2 "Too many requests" = false) :
    (login st storage (.err m1)).2.2.error = some "Invalid username or password." ∧
    (login st storage (.err m2)).2.2.error = some m2 := by
  constructor
  · simp [login, mapLoginError, h1, h2]
  · simp [login, mapLoginError, h3, h4, h5, h6]

/-- Claim C8 witness: the exact backend phrase maps to the fixed message and
an unrecognized message passes through. -/
theorem login_error_mapping_witness :
    (login { user := none, isAuthenticated := false, isLoading := false } { token := none }
        (.err "Invalid user credentials")).2.2.error
      = some "Invalid username or password." ∧
    (login { user := none, isAuthenticated := false, isLoading := false } { token := none }
        (.err "bad gateway")).2.2.error = some "bad gateway" :=
  login_error_mapping
    { user := none, isAuthenticated := false, isLoading := false } { token := none }
    "Invalid user credentials" "bad gateway"
    (by decide) (by decide) (by decide) (by decide) (by decide) (by decide)

/-- Claim C10: `logout`, `refreshAuth`, `getCurrentUser`, `checkAuth` and
`setUser` leave `isLoading` unchanged for every state and backend response —
in particular a failed `refreshAuth` resets `user` and `isAuthenticated` but
not `isLoading` — while `login`, `signup` and `initializeAuth` do write it
(each ends with it false, so each changes any state where it was true). -/
theorem isLoading_frame (st : AuthState) (storage : Storage) (u : Option UserProfile)
    (outcome : ApiResult Unit) (e : String) (r r1 r2 r3 r4 : ApiResult AuthResponse)
    (rs : ApiResult RegisterResponse) :
    (logout st storage outcome).1.isLoading = st.isLoading ∧
    (refreshAuth st storage r).1.isLoading = st.isLoading ∧
    (getCurrentUser st storage r).1.isLoading = st.isLoading ∧
    (checkAuth st storage r1 r2 r3).1.isLoading = st.isLoading ∧
    (setUser st u).isLoading = st.isLoading ∧
    (refreshAuth st storage (.err e)).1.user = none ∧
    (refreshAuth st storage (.err e)).1.isAuthenticated = false ∧
    (refreshAuth st storage (.err e)).1.isLoading = st.isLoading ∧
    (login st storage r).1.isLoading = false ∧
    (signup st storage rs).1.isLoading = false ∧
    (initializeAuth st storage r1 r2 r3 r4).1.isLoading = false := by
  refine ⟨?_, refreshAuth_isLoading st storage r, getCurrentUser_isLoading st storage r,
    checkAuth_isLoading st storage r1 r2 r3, rfl, rfl, rfl,
    refreshAuth_isLoading st storage (.err e),
    login_isLoading_false st storage r, signup_isLoading_false st storage rs, rfl⟩
  cases outcome <;> rfl

/-- Claim C1: in a burst of `n ≥ 1` concurrent 401s starting from an idle
client, exactly one refresh call is made and request 0 (the first 401) owns
it; on a refresh that returns a token every request is retried exactly once
with that token, in arrival order (owner first, then the queue in order), and
the token is persisted; on a failed refresh no retry happens and all `n`
requests fail with the refresh error. -/
theorem refresh_burst_coordination (n : Nat) (hn : 0 < n) (storage : Storage)
    (tk e : String) (msg : Option String) (rr : Nat → RetryResponse) :
    ((runBurst storage n (.token tk) msg rr).refreshCalls = 1 ∧
      (runBurst storage n (.token tk) msg rr).owner = some 0 ∧
      (runBurst storage n (.token tk) msg rr).retried
        = (List.range n).map (fun i => (i, tk)) ∧
      (runBurst storage n (.token tk) msg rr).storage = { token := some tk }) ∧
    ((runBurst storage n (.failed e) msg rr).refreshCalls = 1 ∧
      (runBurst storage n (.failed e) msg rr).retried = [] ∧
      (runBurst storage n (.failed e) msg rr).outcomes
        = (List.range n).map (fun i => (i, ReqOutcome.error e))) := by
  obtain ⟨m, rfl⟩ : ∃ m, n = m + 1 := ⟨n - 1, (Nat.succ_pred_eq_of_pos hn).symm⟩
  simp only [runBurst, burst_client_state]
  constructor
  · refine ⟨rfl, rfl, ?_, rfl⟩
    simp only [ownerResume, processQueue]
    rw [filterMap_resolved_map]
    simp [List.range_succ_eq_map, List.map_map, Function.comp]
  · refine ⟨rfl, rfl, ?_⟩
    simp only [ownerResume, processQueue]
    rw [map_rejected_continuation]
    simp [List.range_succ_eq_map, List.map_map, Function.comp]

/-- Claim C1 witness: a burst of two requests, evaluated for a successful and
for a failed refresh. -/
theorem refresh_burst_coordination_witness :
    ((runBurst ⟨some "t0"⟩ 2 (.token "new") (some "jwt expired")
          (fun _ => ⟨true, 200, none, "B"⟩)).refreshCalls = 1 ∧
      (runBurst ⟨some "t0"⟩ 2 (.token "new") (some "jwt expired")
          (fun _ => ⟨true, 200, none, "B"⟩)).owner = some 0 ∧
      (runBurst ⟨some "t0"⟩ 2 (.token "new") (some "jwt expired")
          (fun _ => ⟨true, 200, none, "B"⟩)).retried
        = (List.range 2).map (fun i => (i, "new")) ∧
      (runBurst ⟨some "t0"⟩ 2 (.token "new") (some "jwt expired")
          (fun _ => ⟨true, 200, none, "B"⟩)).storage = { token := some "new" }) ∧
    ((runBurst ⟨some "t0"⟩ 2 (.failed "refresh down") (some "jwt expired")
          (fun _ => ⟨true, 200, none, "B"⟩)).refreshCalls = 1 ∧
      (runBurst ⟨some "t0"⟩ 2 (.failed "refresh down") (some "jwt expired")
          (fun _ => ⟨true, 200, none, "B"⟩)).retried = [] ∧
      (runBurst ⟨some "t0"⟩ 2 (.failed "refresh down") (some "jwt expired")
          (fun _ => ⟨true, 200, none, "B"⟩)).outcomes
        = (List.range 2).map (fun i => (i, ReqOutcome.error "refresh down"))) :=
  refresh_burst_coordination 2 (by decide) ⟨some "t0"⟩ "new" "refresh down"
    (some "jwt expired") (fun _ => ⟨true, 200, none, "B"⟩)

/-- Claim C2: evaluation at the failing input — two concurrent 401s, refresh
resolves 2xx without an access token.  The refresh settles, `isRefreshing`
is reset to false, yet the queued continuation of request 1 is neither
resolved nor rejected: the queue is not drained and is non-empty outside the
refresh window, contradicting "the queue is drained whenever the in-flight
refresh settles and empty whenever no refresh is in flight". -/
theorem tokenless_refresh_strands_queue :
    (runBurst ⟨some "t0"⟩ 2 .okNoToken (some "jwt expired")
        (fun _ => ⟨true, 200, none, "B"⟩)).isRefreshingAfter = false ∧
    (runBurst ⟨some "t0"⟩ 2 .okNoToken (some "jwt expired")
        (fun _ => ⟨true, 200, none, "B"⟩)).queueAfter = [1] ∧
    (runBurst ⟨some "t0"⟩ 2 .okNoToken (some "jwt expired")
        (fun _ => ⟨true, 200, none, "B"⟩)).pendingReqs = [1] ∧
    (runBurst ⟨some "t0"⟩ 2 (.token "new") (some "jwt expired")
        (fun _ => ⟨true, 200, none, "B"⟩)).queueAfter = [] ∧
    (runBurst ⟨some "t0"⟩ 2 (.failed "down") (some "jwt expired")
        (fun _ => ⟨true, 200, none, "B"⟩)).queueAfter = [] :=
  ⟨rfl, rfl, rfl, rfl, rfl⟩

/-- Claim C3: when the refresh call fails with queued requests present, the
owner and every queued request fail with that same refresh error, the
persisted token is cleared, the redirect to `/login` happens exactly once
however long the queue is, and nothing is left queued or in flight. -/
theorem refresh_failure_cleanup (n : Nat) (hn : 0 < n) (storage : Storage)
    (e : String) (msg : Option String) (rr : Nat → RetryResponse) :
    (runBurst storage n (.failed e) msg rr).outcomes
      = (List.range n).map (fun i => (i, ReqOutcome.error e)) ∧
    (runBurst storage n (.failed e) msg rr).storage.token = none ∧
    (runBurst storage n (.failed e) msg rr).redirects = 1 ∧
    (runBurst storage n (.failed e) msg rr).queueAfter = [] ∧
    (runBurst storage n (.failed e) msg rr).isRefreshingAfter = false := by
  obtain ⟨m, rfl⟩ : ∃ m, n = m + 1 := ⟨n - 1, (Nat.succ_pred_eq_of_pos hn).symm⟩
  simp only [runBurst, burst_client_state]
  refine ⟨?_, rfl, rfl, rfl, rfl⟩
  simp only [ownerResume, processQueue]
  rw [map_rejected_continuation]
  simp [List.range_succ_eq_map, List.map_map, Function.comp]

/-- Claim C3 witness: a failed refresh over a queue of two, evaluated. -/
theorem refresh_failure_cleanup_witness :
    (runBurst ⟨some "t0"⟩ 3 (.failed "refresh down") (some "jwt expired")
        (fun _ => ⟨true, 200, none, "B"⟩)).outcomes
      = (List.range 3).map (fun i => (i, ReqOutcome.error "refresh down")) ∧
    (runBurst ⟨some "t0"⟩ 3 (.failed "refresh down") (some "jwt expired")
        (fun _ => ⟨true, 200, none, "B"⟩)).storage.token = none ∧
    (runBurst ⟨some "t0"⟩ 3 (.failed "refresh down") (some "jwt expired")
        (fun _ => ⟨true, 200, none, "B"⟩)).redirects = 1 ∧
    (runBurst ⟨some "t0"⟩ 3 (.failed "refresh down") (some "jwt expired")
        (fun _ => ⟨true, 200, none, "B"⟩)).queueAfter = [] ∧
    (runBurst ⟨some "t0"⟩ 3 (.failed "refresh down") (some "jwt expired")
        (fun _ => ⟨true, 200, none, "B"⟩)).isRefreshingAfter = false :=
  refresh_failure_cleanup 3 (by decide) ⟨some "t0"⟩ "refresh down"
    (some "jwt expired") (fun _ => ⟨true, 200, none, "B"⟩)

/-- Claim C9: evaluation at the failing input — after a successful refresh,
the retry of the queued request 1 answers 500 with an error body carrying
`message: boom`, but the thrown error is the generic `HTTP error! status:
500`, because the queued-retry branch reads `errorData` off an un-awaited
`response.json()` promise; on the owner's retry branch, which does await,
the same response produces `boom`. -/
theorem queued_retry_drops_backend_message :
    (runBurst ⟨some "t0"⟩ 2 (.token "new") none
        (fun i => if i = 0 then ⟨true, 200, none, "B"⟩
                  else ⟨false, 500, some "boom", ""⟩)).outcomes
      = [(0, ReqOutcome.ok "B"), (1, ReqOutcome.error "HTTP error! status: 500")] ∧
    ownerRetryOutcome ⟨false, 500, some "boom", ""⟩ = ReqOutcome.error "boom" ∧
    queuedRetryOutcome ⟨false, 500, some "boom", ""⟩
      = ReqOutcome.error "HTTP error! status: 500" :=
  ⟨rfl, rfl, rfl⟩

end GajpatiAdmin
